import Mathlib

/-!
Verification of the RF-Monitor control loop (rfmonitor/gui.py).

The control loop `FrameMain` is embedded shallowly: timestamps, frequencies
and power levels (dB) are rationals, the mutable frame state is a `Frame`
record, and each event handler of gui.py becomes a pure state-transformer.
The monitor state machine (`Monitor.set_level`, `Monitor.set_recording`),
the constants module, and the file loader are not part of the given source
tree (only their callers in gui.py are), so those are modelled from the
spec, as marked in their doc comments.
-/

namespace RFMonitor

/-- A closed signal interval: start and end timestamps and an optional
(latitude, longitude) position captured when the signal opened. -/
structure Signal where
  start : ℚ
  end_ : ℚ
  position : Option (ℚ × ℚ)
deriving DecidableEq, Repr

/-- An open (in-progress) signal: the start timestamp and the position
observed when it opened; the end is not yet set. -/
structure OpenSig where
  start : ℚ
  position : Option (ℚ × ℚ)
deriving DecidableEq, Repr

/-- A frequency monitor: per-frequency detection state machine state. -/
structure Monitor where
  frequency : ℚ
  enabled : Bool
  threshold : ℚ
  calibration : ℚ
  alertEnabled : Bool
  recording : Bool
  currentSignal : Option OpenSig
  signals : List Signal
deriving DecidableEq, Repr

/-- Modelled from the spec: `Monitor.set_level` lives in the monitor module,
which is not under src/ (gui.py only calls it).  Per the spec: while not
recording, level updates are ignored; in Idle a level at or above
threshold + calibrationOffset opens a signal at the given timestamp and
position; in Open a level below that bound, or a `None` level, closes the
signal with the given timestamp, appends it to `signals` and returns it;
all other cases are no-ops returning no completed signal. -/
def Monitor.set_level (m : Monitor) (level : Option ℚ) (t : ℚ)
    (pos : Option (ℚ × ℚ)) : Monitor × Option Signal :=
  if m.recording = false then (m, none)
  else
    match level, m.currentSignal with
    | none, none => (m, none)
    | none, some o =>
        let s : Signal := ⟨o.start, t, o.position⟩
        ({ m with currentSignal := none, signals := m.signals ++ [s] }, some s)
    | some p, none =>
        if m.threshold + m.calibration ≤ p then
          ({ m with currentSignal := some ⟨t, pos⟩ }, none)
        else (m, none)
    | some p, some o =>
        if m.threshold + m.calibration ≤ p then (m, none)
        else
          let s : Signal := ⟨o.start, t, o.position⟩
          ({ m with currentSignal := none, signals := m.signals ++ [s] }, some s)

/-- Modelled from the spec: `Monitor.set_recording` is in the monitor module,
not under src/.  A recording-stop while a signal is open forces an immediate
close using the stop timestamp, with the same append-and-return behaviour as
a level drop; starting to record only sets the flag. -/
def Monitor.set_recording (m : Monitor) (recording : Bool) (t : ℚ) :
    Monitor × Option Signal :=
  if recording then ({ m with recording := true }, none)
  else
    match m.currentSignal with
    | none => ({ m with recording := false }, none)
    | some o =>
        let s : Signal := ⟨o.start, t, o.position⟩
        ({ m with
            recording := false
            currentSignal := none
            signals := m.signals ++ [s] }, some s)

/-- Whether the monitor has an open signal (is in state Open). -/
def Monitor.isOpen (m : Monitor) : Bool :=
  m.currentSignal.isSome

/-- Modelled from the spec: the enable toggle lives in the panel module,
which is not under src/.  Per the spec a disabled monitor keeps a frozen
state and re-enabling starts fresh from Idle, so enabling clears any open
signal while disabling only clears the flag. -/
def Monitor.set_enabled (m : Monitor) (enabled : Bool) : Monitor :=
  if enabled then { m with enabled := true, currentSignal := none }
  else { m with enabled := false }

/-- Modelled from the spec: the constants module is not under src/.
`LEVEL_MIN` is the fixed dB floor gui.py feeds to every monitor on scan
stop; its only relevant property is being below any realistic threshold. -/
def LEVEL_MIN : ℚ := -100

/-- One SCAN_DATA event payload: the bin frequencies `f`, the bin power
levels in dB (gui.py converts the raw linear powers with 10*log10 before
any use; the conversion is out of scope, the dB array is taken as given),
and the capture timestamp. -/
structure ScanEvent where
  f : List ℚ
  levels : List ℚ
  timestamp : ℚ
deriving DecidableEq, Repr

/-- An export record handed to the server: the monitor frequency and the
completed signal (format_recording's payload). -/
structure SentRec where
  frequency : ℚ
  signal : Signal
deriving DecidableEq, Repr

/-- First index of `fs` holding exactly `freq`; `numpy.where(freq ==
event['f'])[0]` followed by taking element 0 yields exactly this index. -/
def binIdx (freq : ℚ) : List ℚ → Option Nat
  | [] => none
  | f :: fs => if f = freq then some 0 else (binIdx freq fs).map (· + 1)

/-- The bin-lookup of gui.py lines 369-370:
`index = numpy.where(freq == event['f'])[0]` followed by `levels[index][0]`,
i.e. the level at the first index whose bin frequency is exactly equal to
the monitor frequency; `none` models the IndexError raised when no bin
matches exactly. -/
def binLevel (fs lv : List ℚ) (freq : ℚ) : Option ℚ :=
  (binIdx freq fs).bind lv.get?

/-- The monitor loop of `FrameMain.__on_scan_data` (gui.py 365-377): each
enabled monitor gets the level at its exactly-matching bin; a failed lookup
aborts the loop (IndexError), leaving that monitor and the rest untouched.
Returns the updated monitors, the records sent to the server (only while
the server reference is alive), the `updated` flag, and whether the loop
ran to completion without an exception. -/
def dispatchMonitors (loc : Option (ℚ × ℚ)) (serverAlive : Bool)
    (e : ScanEvent) : List Monitor → List Monitor × List SentRec × Bool × Bool
  | [] => ([], [], false, true)
  | m :: rest =>
    if m.enabled then
      match binLevel e.f e.levels m.frequency with
      | none => (m :: rest, [], false, false)
      | some v =>
          let r := m.set_level (some v) e.timestamp loc
          let sentHere : List SentRec :=
            match r.2 with
            | some sig => if serverAlive then [⟨m.frequency, sig⟩] else []
            | none => []
          let d := dispatchMonitors loc serverAlive e rest
          (r.1 :: d.1, sentHere ++ d.2.1, (r.2.isSome || d.2.2.1), d.2.2.2)
    else
      let d := dispatchMonitors loc serverAlive e rest
      (m :: d.1, d.2.1, d.2.2.1, d.2.2.2)

/-- The state of `FrameMain` relevant to the control loop: the monitor
list, the shared smoothed spectrum, the last known position, whether the
server reference is alive, the records sent so far, the saved flag, the
current filename, the toolbar frequency/gain/calibration and the shared
last-alert timestamp. -/
structure Frame where
  monitors : List Monitor
  levels : List ℚ
  location : Option (ℚ × ℚ)
  server : Bool
  sent : List SentRec
  isSaved : Bool
  filename : Option String
  freq : ℚ
  gain : ℚ
  cal : ℚ
  alertLast : ℚ
deriving DecidableEq, Repr

/-- `FrameMain.__on_scan_data` (gui.py 358-391): first the smoothed
spectrum is updated as `levels = (levels + sample) / 2` elementwise, then
the monitor loop runs; the saved flag is cleared only if some monitor
completed a signal and the loop did not raise.  The second component is
false when the loop aborted with an IndexError. -/
def on_scan_data (fr : Frame) (e : ScanEvent) : Frame × Bool :=
  let lv := List.zipWith (fun a b => (a + b) / 2) fr.levels e.levels
  let d := dispatchMonitors fr.location fr.server e fr.monitors
  let fr1 : Frame :=
    { fr with levels := lv, monitors := d.1, sent := fr.sent ++ d.2.1 }
  let updated := d.2.2.1
  let ok := d.2.2.2
  (if ok && updated then { fr1 with isSaved := false } else fr1, ok)

/-- `FrameMain.__on_stop` (gui.py 196-204): every monitor, enabled or not,
receives `set_level(LEVEL_MIN, 0, None)`; the returned signals are
discarded by the caller (they stay in each monitor's history). -/
def on_stop (fr : Frame) : Frame :=
  { fr with monitors :=
      fr.monitors.map (fun m => (m.set_level (some LEVEL_MIN) 0 none).1) }

/-- `FrameMain.__on_rec` (gui.py 184-194): on a recording toggle at a
timestamp, every monitor first gets `set_level(None, t, None)` if recording
stopped, then `set_recording`. -/
def on_rec (fr : Frame) (recording : Bool) (t : ℚ) : Frame :=
  { fr with monitors := fr.monitors.map (fun m =>
      let m1 := if recording then m else (m.set_level none t none).1
      (m1.set_recording recording t).1) }

/-- `FrameMain.__on_server_error` (gui.py 393-395): the message goes to
stderr and the server reference is set to none for the rest of the
session. -/
def on_server_error (fr : Frame) (_msg : String) : Frame :=
  { fr with server := false }

/-- The MON_ALERT branch of `FrameMain.__on_event` (gui.py 344-348): the
alert plays only if at least `alertLength` seconds have passed since the
last fired alert, and the shared timestamp is updated exactly when it
plays.  `alertLength` stands for the ALERT_LENGTH constant (constants
module not under src/); `now` is the wall-clock time of the event. -/
def on_mon_alert (fr : Frame) (alertLength now : ℚ) : Frame × Bool :=
  if alertLength ≤ now - fr.alertLast then
    ({ fr with alertLast := now }, true)
  else (fr, false)

/-- The initial `FrameMain` state (gui.py 67-79, 118, 152): no monitors,
a zeroed smoothed spectrum of `bins` bins, no location, a live server,
nothing sent, saved, no filename, toolbar values from settings, and the
last-alert timestamp initialised to 0. -/
def initFrame (bins : Nat) (freq gain cal : ℚ) : Frame :=
  { monitors := []
    levels := List.replicate bins 0
    location := none
    server := true
    sent := []
    isSaved := true
    filename := none
    freq := freq
    gain := gain
    cal := cal
    alertLast := 0 }

/-- The result of a successful `load_recordings` parse (the file module is
not under src/): the stored frequency, gain, calibration and monitor
list. -/
structure LoadResult where
  freq : ℚ
  gain : ℚ
  cal : ℚ
  monitors : List Monitor
deriving DecidableEq, Repr

/-- `FrameMain.__add_monitors` (gui.py 476-489) builds a fresh panel per
loaded monitor, copying enabled, alert, frequency, threshold and signals;
a fresh panel starts Idle, not recording, with default calibration. -/
def loadPanel (m : Monitor) : Monitor :=
  { frequency := m.frequency
    enabled := m.enabled
    threshold := m.threshold
    calibration := 0
    alertEnabled := m.alertEnabled
    recording := false
    currentSignal := none
    signals := m.signals }

/-- `FrameMain.open` (gui.py 450-468).  The outcome of `load_recordings`
(file module not under src/) enters as the `parsed` argument: `none` for a
ValueError (unparsable file), `some` for a successful parse.  On `none` a
message box is shown (the returned flag) and the method returns before any
mutation; on `some` the filename, toolbar values and monitor list are
replaced and the state is marked saved. -/
def FrameMain.open (fr : Frame) (filename : String)
    (parsed : Option LoadResult) : Frame × Bool :=
  match parsed with
  | none => (fr, true)
  | some r =>
      ({ fr with
          filename := some filename
          freq := r.freq
          gain := r.gain
          cal := r.cal
          monitors := r.monitors.map loadPanel
          isSaved := true }, false)

/-- A single operation that can reach a monitor from the control loop:
a level update from a scan (`level`), a recording toggle (`record`), or
the scan-stop feed of gui.py 201-202 (`scanStop`, which is
`set_level(LEVEL_MIN, 0, None)`). -/
inductive MonOp where
  | level (p : Option ℚ) (t : ℚ) (pos : Option (ℚ × ℚ))
  | record (r : Bool) (t : ℚ)
  | scanStop
deriving DecidableEq, Repr

/-- The timestamp an operation carries (scan-stop always uses 0,
gui.py line 202). -/
def MonOp.time : MonOp → ℚ
  | .level _ t _ => t
  | .record _ t => t
  | .scanStop => 0

/-- Apply one operation to a monitor, discarding the returned signal the
way the gui callers do (it stays in the monitor's history). -/
def Monitor.step (m : Monitor) : MonOp → Monitor
  | .level p t pos => (m.set_level p t pos).1
  | .record r t => (m.set_recording r t).1
  | .scanStop => (m.set_level (some LEVEL_MIN) 0 none).1

/-- Run a monitor through a list of operations. -/
def Monitor.run (m : Monitor) : List MonOp → Monitor
  | [] => m
  | op :: ops => (m.step op).run ops

/-- The operations are level updates and recording toggles (no scan-stop)
with timestamps that never decrease, starting from lower bound `t`. -/
def opsMono : ℚ → List MonOp → Prop
  | _, [] => True
  | t, op :: ops => op ≠ MonOp.scanStop ∧ t ≤ op.time ∧ opsMono op.time ops

/-- Monitor sanity at time lower bound `t`: every closed signal satisfies
start ≤ end, and an open signal started no later than `t`. -/
def MonOk (m : Monitor) (t : ℚ) : Prop :=
  (∀ s ∈ m.signals, s.start ≤ s.end_) ∧
    ∀ o, m.currentSignal = some o → o.start ≤ t

/-- Boolean check that every closed signal of a monitor satisfies
start ≤ end. -/
def signalsAllOk (m : Monitor) : Bool :=
  m.signals.all (fun s => decide (s.start ≤ s.end_))

/-- The debounce behaviour of one MON_ALERT pair arriving at times `t1`
then `t2`: never both fire; if at the first event at least `alertLength`
has passed since the last fired alert, exactly the first fires; an event
fires only when at least `alertLength` has passed since the last fired
alert, and the shared timestamp is updated exactly with a firing
decision. -/
def alertPairSpec (fr : Frame) (alertLength t1 t2 : ℚ) : Prop :=
  ¬((on_mon_alert fr alertLength t1).2 = true ∧
      (on_mon_alert (on_mon_alert fr alertLength t1).1 alertLength t2).2 = true) ∧
  (alertLength ≤ t1 - fr.alertLast →
    (on_mon_alert fr alertLength t1).2 = true ∧
      (on_mon_alert (on_mon_alert fr alertLength t1).1 alertLength t2).2 = false) ∧
  ((on_mon_alert fr alertLength t1).2 = true →
    alertLength ≤ t1 - fr.alertLast ∧ (on_mon_alert fr alertLength t1).1.alertLast = t1) ∧
  ((on_mon_alert fr alertLength t1).2 = false →
    (on_mon_alert fr alertLength t1).1.alertLast = fr.alertLast)

/-- The GPS subsystem state seen from gui.py: the current `Gps` instance
reference (`_gps`, by numeric id), the id for the next instance, the list
of instances started and not yet stopped, the pending one-shot restart
callbacks as (scheduling time, due time) pairs, the status-bar text and
whether GPS is enabled in the settings. -/
structure GpsState where
  gps : Option Nat
  nextId : Nat
  active : List Nat
  pending : List (ℚ × ℚ)
  status : String
  enabled : Bool
deriving DecidableEq, Repr

/-- `FrameMain.__start_gps` (gui.py 525-528): only when no instance is
referenced and GPS is enabled, a new instance is created. -/
def startGps (s : GpsState) : GpsState :=
  if s.gps.isNone && s.enabled then
    { s with
        gps := some s.nextId
        nextId := s.nextId + 1
        active := s.active ++ [s.nextId]
        status := "Staring GPS..." }
  else s

/-- `FrameMain.__stop_gps` (gui.py 530-533): the referenced instance, if
any, is stopped (removed from the active list) and the reference
cleared. -/
def stopGps (s : GpsState) : GpsState :=
  match s.gps with
  | some i => { s with gps := none, active := s.active.erase i }
  | none => s

/-- `FrameMain.__restart_gps` (gui.py 535-537) at wall-clock time `t`:
stop, then schedule a one-shot `__start_gps` callback due `retry` seconds
later (`wx.CallLater(GPS_RETRY * 1000, ...)`; `retry` stands for the
GPS_RETRY constant, whose module is not under src/). -/
def restartGps (retry : ℚ) (s : GpsState) (t : ℚ) : GpsState :=
  let s1 := stopGps s
  { s1 with pending := s1.pending ++ [(t, t + retry)] }

/-- Events reaching the GPS logic of the control loop: a fatal failure
(GPS_ERROR or GPS_TIMEOUT), a GPS_WARN, or the expiry of the pending
one-shot callback at list position `k`. -/
inductive GpsEv where
  | fail (msg : String)
  | warn (msg : String)
  | fire (k : Nat)
deriving DecidableEq, Repr

/-- Expiry of pending callback `k` at time `t`.  A one-shot timer cannot
go off before its due time, so the callback runs only when `t` has reached
it; it is consumed and `__start_gps` runs. -/
def gpsFire (s : GpsState) (t : ℚ) (k : Nat) : GpsState :=
  match s.pending.get? k with
  | some sd =>
      if sd.2 ≤ t then startGps { s with pending := s.pending.eraseIdx k }
      else s
  | none => s

/-- One control-loop step of the GPS logic (gui.py 332-339): GPS_ERROR and
GPS_TIMEOUT set the status text and restart; GPS_WARN only sets the status
text; a timer expiry runs the delayed `__start_gps`. -/
def gpsStep (retry : ℚ) (s : GpsState) : ℚ × GpsEv → GpsState
  | (t, GpsEv.fail msg) => restartGps retry { s with status := msg } t
  | (_, GpsEv.warn msg) => { s with status := msg }
  | (t, GpsEv.fire k) => gpsFire s t k

/-- Run the GPS logic over a timed event trace. -/
def runGps (retry : ℚ) (s : GpsState) : List (ℚ × GpsEv) → GpsState
  | [] => s
  | ev :: evs => runGps retry (gpsStep retry s ev) evs

/-- The GPS state at the end of `FrameMain.__init__` (gui.py 120):
`__start_gps` applied to the empty state. -/
def gpsInit (enabled : Bool) : GpsState :=
  startGps
    { gps := none, nextId := 0, active := [], pending := [], status := "",
      enabled := enabled }

/-- GPS invariant: every pending restart callback is due exactly `retry`
seconds after the failing event that scheduled it, and the active
instances are exactly the referenced one. -/
def GpsInv (retry : ℚ) (s : GpsState) : Prop :=
  (∀ p ∈ s.pending, p.2 = p.1 + retry) ∧
    (∀ i, s.gps = some i → s.active = [i]) ∧
    (s.gps = none → s.active = [])

/-- Restart timing: whenever the expiry of pending callback `k` changes
the instance reference (i.e. actually restarts), the fired entry was
scheduled by a failure at some time `sched` and is due at
`sched + retry ≤ t`. -/
def gpsRestartSpec (retry : ℚ) (s : GpsState) : Prop :=
  ∀ t k, (gpsFire s t k).gps ≠ s.gps →
    ∃ sched, s.pending.get? k = some (sched, sched + retry) ∧
      sched + retry ≤ t

/-- The three chained `set_level` calls a monitor sees for a power
sequence p0, p1, p2 at timestamps t0, t1, t2. -/
def updates3 (m : Monitor) (p0 p1 p2 t0 t1 t2 : ℚ)
    (pos0 pos1 pos2 : Option (ℚ × ℚ)) :
    (Monitor × Option Signal) × (Monitor × Option Signal) × (Monitor × Option Signal) :=
  let r0 := m.set_level (some p0) t0 pos0
  let r1 := r0.1.set_level (some p1) t1 pos1
  let r2 := r1.1.set_level (some p2) t2 pos2
  (r0, r1, r2)

/-- Rise-then-fall behaviour: for `p0, p1` at or above the calibrated
threshold and `p2` below it, the first two updates return no completed
signal, the third returns exactly the signal started at `t0` and ended at
`t2`, that one signal is appended to the history once, and the monitor is
Idle again. -/
def riseFallSpec (m : Monitor) (p0 p1 p2 t0 t1 t2 : ℚ)
    (pos0 pos1 pos2 : Option (ℚ × ℚ)) : Prop :=
  (updates3 m p0 p1 p2 t0 t1 t2 pos0 pos1 pos2).1.2 = none ∧
  (updates3 m p0 p1 p2 t0 t1 t2 pos0 pos1 pos2).2.1.2 = none ∧
  (updates3 m p0 p1 p2 t0 t1 t2 pos0 pos1 pos2).2.2.2 = some ⟨t0, t2, pos0⟩ ∧
  (updates3 m p0 p1 p2 t0 t1 t2 pos0 pos1 pos2).2.2.1.signals
    = m.signals ++ [⟨t0, t2, pos0⟩] ∧
  (updates3 m p0 p1 p2 t0 t1 t2 pos0 pos1 pos2).2.2.1.currentSignal = none

/-- Append-iff-close behaviour of a single update: the history grows by
exactly the returned signal (so nothing is ever appended twice), and a
signal is returned exactly when the update took the monitor from Open to
Idle. -/
def updateAppendSpec (m : Monitor) (lvl : Option ℚ) (t : ℚ)
    (pos : Option (ℚ × ℚ)) : Prop :=
  (m.set_level lvl t pos).1.signals
      = m.signals ++ (m.set_level lvl t pos).2.toList ∧
  (m.set_level lvl t pos).2.isSome
      = (m.isOpen && !(m.set_level lvl t pos).1.isOpen)

/-- A fresh enabled recording monitor on 1 MHz with threshold 0 and no
history. -/
def mFresh : Monitor :=
  { frequency := 1, enabled := true, threshold := 0, calibration := 0,
    alertEnabled := false, recording := true, currentSignal := none,
    signals := [] }

/-- An enabled recording monitor tuned strictly between the bin centres
1 MHz and 2 MHz (at 5/4 MHz, within one bin width of the 1 MHz bin). -/
def mOff : Monitor :=
  { mFresh with frequency := 5/4 }

/-- A frame holding only the off-bin monitor. -/
def frOff : Frame :=
  { initFrame 2 100 20 0 with monitors := [mOff] }

/-- A scan event with bins at 1 MHz and 2 MHz carrying 10 dB and 20 dB. -/
def eBins : ScanEvent :=
  { f := [1, 2], levels := [10, 20], timestamp := 7 }

/-- A disabled monitor that is recording and has an open signal started at
time 5 (a monitor disabled mid-signal). -/
def mDis : Monitor :=
  { mFresh with enabled := false, currentSignal := some ⟨5, none⟩ }

/-- A frame holding only the disabled open monitor. -/
def frDis : Frame :=
  { initFrame 2 100 20 0 with monitors := [mDis] }

/-- A fresh frame with last-alert timestamp 0. -/
def frZ : Frame :=
  initFrame 2 100 20 0

/-- Witness operation list for the history invariant: open at time 1,
close at time 2. -/
def opsW : List MonOp :=
  [MonOp.level (some 10) 1 none, MonOp.level (some (-1)) 2 none]

theorem on_scan_data_monitors (fr : Frame) (e : ScanEvent) :
    (on_scan_data fr e).1.monitors
      = (dispatchMonitors fr.location fr.server e fr.monitors).1 := by
  simp only [on_scan_data]
  split <;> rfl

theorem on_scan_data_sent (fr : Frame) (e : ScanEvent) :
    (on_scan_data fr e).1.sent
      = fr.sent ++ (dispatchMonitors fr.location fr.server e fr.monitors).2.1 := by
  simp only [on_scan_data]
  split <;> rfl

theorem on_scan_data_levels (fr : Frame) (e : ScanEvent) :
    (on_scan_data fr e).1.levels
      = List.zipWith (fun a b => (a + b) / 2) fr.levels e.levels := by
  simp only [on_scan_data]
  split <;> rfl

theorem dispatch_dead_sent (loc : Option (ℚ × ℚ)) (e : ScanEvent)
    (ms : List Monitor) : (dispatchMonitors loc false e ms).2.1 = [] := by
  induction ms with
  | nil => rfl
  | cons m rest ih =>
    unfold dispatchMonitors
    by_cases hm : m.enabled
    · cases hv : binLevel e.f e.levels m.frequency with
      | none => simp [hm, hv]
      | some v =>
          cases hs : (m.set_level (some v) e.timestamp loc).2 <;>
            simp [hm, hv, hs, ih]
    · simp [hm, ih]

theorem dispatch_monitors_server (loc : Option (ℚ × ℚ)) (e : ScanEvent)
    (ms : List Monitor) (sa sb : Bool) :
    (dispatchMonitors loc sa e ms).1 = (dispatchMonitors loc sb e ms).1 := by
  induction ms with
  | nil => rfl
  | cons m rest ih =>
    unfold dispatchMonitors
    by_cases hm : m.enabled
    · cases hv : binLevel e.f e.levels m.frequency with
      | none => simp [hm, hv]
      | some v => simp [hm, hv, ih]
    · simp [hm, ih]

/-- C5: on every SCAN_DATA event the shared smoothed spectrum becomes the
elementwise average of the old spectrum and the incoming sample —
`smoothed = (smoothed + sample) / 2` — whatever the monitor list and
states are (the frame, hence every monitor, is universally quantified, and
replacing the monitor list changes nothing about the result). -/
theorem scan_data_smoothing (fr : Frame) (e : ScanEvent) (ms : List Monitor) :
    (on_scan_data fr e).1.levels
        = List.zipWith (fun a b => (a + b) / 2) fr.levels e.levels ∧
    (on_scan_data { fr with monitors := ms } e).1.levels
        = (on_scan_data fr e).1.levels := by
  refine ⟨on_scan_data_levels fr e, ?_⟩
  rw [on_scan_data_levels, on_scan_data_levels]

/-- C7: after a SERVER_ERROR event the server reference is dropped; a
subsequent scan dispatch sends nothing to the exporter while the monitors
(including the signal histories they keep appending to) evolve exactly as
they would with a live server. -/
theorem server_error_drops_sends (fr : Frame) (e : ScanEvent) (msg : String) :
    (on_scan_data (on_server_error fr msg) e).1.sent = fr.sent ∧
    (on_scan_data (on_server_error fr msg) e).1.monitors
      = (on_scan_data fr e).1.monitors := by
  constructor
  · rw [on_scan_data_sent]
    show fr.sent ++ (dispatchMonitors fr.location false e fr.monitors).2.1 = fr.sent
    rw [dispatch_dead_sent]
    exact List.append_nil _
  · rw [on_scan_data_monitors, on_scan_data_monitors]
    exact dispatch_monitors_server fr.location e fr.monitors false fr.server

/-- C8: opening an unparsable file shows the message and leaves every part
of the prior state — monitor list, filename, toolbar frequency, gain and
calibration, and the saved flag — exactly as it was. -/
theorem open_unparsable_untouched (fr : Frame) (filename : String) :
    (FrameMain.open fr filename none).2 = true ∧
    (FrameMain.open fr filename none).1.monitors = fr.monitors ∧
    (FrameMain.open fr filename none).1.filename = fr.filename ∧
    (FrameMain.open fr filename none).1.freq = fr.freq ∧
    (FrameMain.open fr filename none).1.gain = fr.gain ∧
    (FrameMain.open fr filename none).1.cal = fr.cal ∧
    (FrameMain.open fr filename none).1.isSaved = fr.isSaved ∧
    (FrameMain.open fr filename none).1 = fr :=
  ⟨rfl, rfl, rfl, rfl, rfl, rfl, rfl, rfl⟩

theorem binIdx_first (fs : List ℚ) (freq : ℚ) (i : Nat)
    (hi : fs.get? i = some freq)
    (hfirst : ∀ j, j < i → fs.get? j ≠ some freq) :
    binIdx freq fs = some i := by
  induction fs generalizing i with
  | nil => simp at hi
  | cons f fs ih =>
    cases i with
    | zero =>
        simp only [List.get?] at hi
        injection hi with hf
        simp [binIdx, hf]
    | succ n =>
        have hf : ¬(f = freq) := by
          have h0 := hfirst 0 (Nat.succ_pos n)
          simpa using h0
        have hi' : fs.get? n = some freq := by simpa using hi
        have hfirst' : ∀ j, j < n → fs.get? j ≠ some freq := by
          intro j hj
          have := hfirst (j + 1) (Nat.succ_lt_succ hj)
          simpa using this
        simp [binIdx, hf, ih n hi' hfirst']

/-- C1 (amended): the dispatch routes to an enabled monitor the level at
the first bin whose frequency is exactly equal to the monitor's frequency
(`numpy.where` equality match, first index); a monitor matching no bin
exactly gets nothing — the lookup is not a nearest-bin lookup. -/
theorem routing_first_exact_match (fs lv : List ℚ) (freq : ℚ) (i : Nat)
    (e : ScanEvent) (loc : Option (ℚ × ℚ)) (sa : Bool) (m : Monitor) (v : ℚ)
    (hi : fs.get? i = some freq)
    (hfirst : ∀ j, j < i → fs.get? j ≠ some freq)
    (henab : m.enabled = true)
    (hv : binLevel e.f e.levels m.frequency = some v) :
    binLevel fs lv freq = lv.get? i ∧
    (dispatchMonitors loc sa e [m]).1
      = [(m.set_level (some v) e.timestamp loc).1] := by
  constructor
  · unfold binLevel
    rw [binIdx_first fs freq i hi hfirst]
    rfl
  · unfold dispatchMonitors
    simp only [henab, hv, if_true]
    rfl

/-- Witness for C1: a monitor tuned exactly to the 1 MHz bin (first and
only exact match at index 0) is routed that bin's 10 dB value. -/
theorem routing_first_exact_match_witness :
    binLevel [1, 2] [10, 20] 1 = [10, 20].get? 0 ∧
    (dispatchMonitors none true eBins [mFresh]).1
      = [(mFresh.set_level (some 10) eBins.timestamp none).1] :=
  routing_first_exact_match [1, 2] [10, 20] 1 0 eBins none true mFresh 10 rfl
    (fun j hj => absurd hj (Nat.not_lt_zero j)) rfl
    (by norm_num [binLevel, binIdx, eBins, mFresh])

/-- C1 counterexample: the monitor tuned to 5/4 MHz sits within one bin
width of the 1 MHz bin, so the claim says it receives that bin's 10 dB
value (which would open a signal); instead the exact-equality lookup finds
nothing, the dispatch aborts with an IndexError and the monitor stays
Idle and untouched. -/
theorem routing_not_nearest_cex :
    mOff.frequency - 1 < 2 - 1 ∧
    binLevel eBins.f eBins.levels mOff.frequency = none ∧
    (on_scan_data frOff eBins).2 = false ∧
    (on_scan_data frOff eBins).1.monitors = frOff.monitors ∧
    (mOff.set_level (some 10) eBins.timestamp none).1.isOpen = true ∧
    mOff.isOpen = false := by
  refine ⟨by norm_num [mOff, mFresh], ?_, ?_, ?_, ?_, rfl⟩
  · norm_num [binLevel, binIdx, eBins, mOff, mFresh]
  · norm_num [on_scan_data, dispatchMonitors, binLevel, binIdx, eBins,
      frOff, mOff, mFresh, initFrame]
  · norm_num [on_scan_data, dispatchMonitors, binLevel, binIdx, eBins,
      frOff, mOff, mFresh, initFrame]
  · norm_num [Monitor.set_level, Monitor.isOpen, eBins, mOff, mFresh]

theorem dispatch_skips_disabled (loc : Option (ℚ × ℚ)) (sa : Bool)
    (e : ScanEvent) (ms : List Monitor) (i : Nat) (m : Monitor)
    (hm : ms.get? i = some m) (hd : m.enabled = false) :
    (dispatchMonitors loc sa e ms).1.get? i = some m := by
  induction ms generalizing i with
  | nil => simp at hm
  | cons m0 rest ih =>
    unfold dispatchMonitors
    by_cases h0 : m0.enabled
    · cases hv : binLevel e.f e.levels m0.frequency with
      | none =>
          simp only [h0, if_true, hv]
          exact hm
      | some v =>
          cases i with
          | zero =>
              simp only [List.get?] at hm
              injection hm with hm
              rw [hm] at h0
              rw [hd] at h0
              simp at h0
          | succ n =>
              simp only [List.get?] at hm
              simp only [h0, if_true, hv]
              simpa using ih n hm
    · cases i with
      | zero =>
          simp only [List.get?] at hm
          simp [h0, hm]
      | succ n =>
          simp only [List.get?] at hm
          simp only [h0, if_false]
          simpa using ih n hm

/-- C3 (amended): during a SCAN_DATA dispatch a disabled monitor receives
no level update and comes out exactly as it went in; the scan-stop
handler, however, calls `set_level(LEVEL_MIN, 0, None)` on every monitor
of the list, disabled ones included; and re-enabling any monitor starts it
fresh from Idle — the re-enabled monitor is enabled with no open
signal. -/
theorem disabled_monitor_frozen_in_dispatch (loc : Option (ℚ × ℚ))
    (sa : Bool) (e : ScanEvent) (ms : List Monitor) (i : Nat) (m : Monitor)
    (fr : Frame) (mm : Monitor) (hm : ms.get? i = some m)
    (hd : m.enabled = false) :
    (dispatchMonitors loc sa e ms).1.get? i = some m ∧
    (on_stop fr).monitors
      = fr.monitors.map (fun x => (x.set_level (some LEVEL_MIN) 0 none).1) ∧
    (mm.set_enabled true).enabled = true ∧
    (mm.set_enabled true).currentSignal = none ∧
    (mm.set_enabled true).isOpen = false ∧
    (mm.set_enabled true).signals = mm.signals := by
  refine ⟨dispatch_skips_disabled loc sa e ms i m hm hd, rfl, ?_, ?_, ?_, ?_⟩ <;>
    simp [Monitor.set_enabled, Monitor.isOpen]

/-- Witness for C3: the concrete disabled monitor is returned unchanged by
a dispatch over it, the concrete stop handler is the stated map, and
re-enabling the disabled open monitor leaves it enabled, Idle, with its
history kept. -/
theorem disabled_monitor_frozen_in_dispatch_witness :
    (dispatchMonitors none true eBins [mDis]).1.get? 0 = some mDis ∧
    (on_stop frDis).monitors
      = frDis.monitors.map (fun x => (x.set_level (some LEVEL_MIN) 0 none).1) ∧
    (mDis.set_enabled true).enabled = true ∧
    (mDis.set_enabled true).currentSignal = none ∧
    (mDis.set_enabled true).isOpen = false ∧
    (mDis.set_enabled true).signals = mDis.signals :=
  disabled_monitor_frozen_in_dispatch none true eBins [mDis] 0 mDis frDis mDis
    rfl rfl

/-- C3 counterexample: the claim says a disabled monitor receives no
`set_level` call and is unchanged by stop; but the scan-stop handler feeds
`set_level(LEVEL_MIN, 0, None)` to the disabled monitor too, closing its
open signal — its state changes. -/
theorem stop_touches_disabled_cex :
    mDis.enabled = false ∧
    (on_stop frDis).monitors
      = [{ mDis with currentSignal := none, signals := [⟨5, 0, none⟩] }] ∧
    ¬((on_stop frDis).monitors.map Monitor.currentSignal
        = frDis.monitors.map Monitor.currentSignal) := by
  have hstop : (on_stop frDis).monitors
      = [{ mDis with currentSignal := none, signals := [⟨5, 0, none⟩] }] := by
    norm_num [on_stop, frDis, mDis, mFresh, initFrame, Monitor.set_level,
      LEVEL_MIN]
  refine ⟨rfl, hstop, ?_⟩
  rw [hstop]
  simp [frDis, mDis, mFresh, initFrame]

theorem set_level_stopped (m : Monitor) (lvl : Option ℚ) (t : ℚ)
    (pos : Option (ℚ × ℚ)) (h : m.recording = false) :
    m.set_level lvl t pos = (m, none) := by
  simp [Monitor.set_level, h]

theorem set_level_none_idle (m : Monitor) (t : ℚ) (pos : Option (ℚ × ℚ))
    (h1 : m.recording = true) (h2 : m.currentSignal = none) :
    m.set_level none t pos = (m, none) := by
  simp [Monitor.set_level, h1, h2]

theorem set_level_none_open (m : Monitor) (t : ℚ) (pos : Option (ℚ × ℚ))
    (o : OpenSig) (h1 : m.recording = true) (h2 : m.currentSignal = some o) :
    m.set_level none t pos
      = ({ m with currentSignal := none, signals := m.signals ++ [⟨o.start, t, o.position⟩] }, some ⟨o.start, t, o.position⟩) := by
  simp [Monitor.set_level, h1, h2]

theorem set_level_rise (m : Monitor) (p t : ℚ) (pos : Option (ℚ × ℚ))
    (h1 : m.recording = true) (h2 : m.currentSignal = none)
    (hp : m.threshold + m.calibration ≤ p) :
    m.set_level (some p) t pos
      = ({ m with currentSignal := some ⟨t, pos⟩ }, none) := by
  simp [Monitor.set_level, h1, h2, hp]

theorem set_level_low (m : Monitor) (p t : ℚ) (pos : Option (ℚ × ℚ))
    (h1 : m.recording = true) (h2 : m.currentSignal = none)
    (hp : ¬(m.threshold + m.calibration ≤ p)) :
    m.set_level (some p) t pos = (m, none) := by
  simp [Monitor.set_level, h1, h2, hp]

theorem set_level_high (m : Monitor) (p t : ℚ) (pos : Option (ℚ × ℚ))
    (o : OpenSig) (h1 : m.recording = true) (h2 : m.currentSignal = some o)
    (hp : m.threshold + m.calibration ≤ p) :
    m.set_level (some p) t pos = (m, none) := by
  simp [Monitor.set_level, h1, h2, hp]

theorem set_level_fall (m : Monitor) (p t : ℚ) (pos : Option (ℚ × ℚ))
    (o : OpenSig) (h1 : m.recording = true) (h2 : m.currentSignal = some o)
    (hp : ¬(m.threshold + m.calibration ≤ p)) :
    m.set_level (some p) t pos
      = ({ m with currentSignal := none, signals := m.signals ++ [⟨o.start, t, o.position⟩] }, some ⟨o.start, t, o.position⟩) := by
  simp [Monitor.set_level, h1, h2, hp]

theorem set_recording_on (m : Monitor) (t : ℚ) :
    m.set_recording true t = ({ m with recording := true }, none) := by
  simp [Monitor.set_recording]

theorem set_recording_off_idle (m : Monitor) (t : ℚ)
    (h : m.currentSignal = none) :
    m.set_recording false t = ({ m with recording := false }, none) := by
  simp [Monitor.set_recording, h]

theorem set_recording_off_open (m : Monitor) (t : ℚ) (o : OpenSig)
    (h : m.currentSignal = some o) :
    m.set_recording false t
      = ({ m with recording := false, currentSignal := none, signals := m.signals ++ [⟨o.start, t, o.position⟩] }, some ⟨o.start, t, o.position⟩) := by
  simp [Monitor.set_recording, h]

theorem MonOk_closed (m : Monitor) (t' : ℚ) (o : OpenSig)
    (hs : ∀ s ∈ m.signals, s.start ≤ s.end_) (hos : o.start ≤ t')
    (m' : Monitor)
    (hm1 : m'.signals = m.signals ++ [⟨o.start, t', o.position⟩])
    (hm2 : m'.currentSignal = none) : MonOk m' t' := by
  constructor
  · intro s hsmem
    rw [hm1] at hsmem
    rcases List.mem_append.1 hsmem with hmem | hmem
    · exact hs s hmem
    · rcases List.mem_singleton.1 hmem with rfl
      exact hos
  · intro o' ho'
    rw [hm2] at ho'
    cases ho'

theorem setLevel_MonOk (m : Monitor) (lvl : Option ℚ) (t t' : ℚ)
    (pos : Option (ℚ × ℚ)) (h : MonOk m t) (ht : t ≤ t') :
    MonOk (m.set_level lvl t' pos).1 t' := by
  obtain ⟨hs, ho⟩ := h
  have hmm : ∀ o', m.currentSignal = some o' → o'.start ≤ t' :=
    fun o' ho' => le_trans (ho o' ho') ht
  cases hrec : m.recording with
  | false =>
      rw [set_level_stopped m lvl t' pos hrec]
      exact ⟨hs, hmm⟩
  | true =>
      rcases lvl with _ | p
      · rcases hc : m.currentSignal with _ | o
        · rw [set_level_none_idle m t' pos hrec hc]
          exact ⟨hs, hmm⟩
        · rw [set_level_none_open m t' pos o hrec hc]
          exact MonOk_closed m t' o hs (hmm o hc) _ rfl rfl
      · by_cases hp : m.threshold + m.calibration ≤ p
        · rcases hc : m.currentSignal with _ | o
          · rw [set_level_rise m p t' pos hrec hc hp]
            refine ⟨hs, ?_⟩
            intro o' ho'
            have ho2 : (⟨t', pos⟩ : OpenSig) = o' := by simpa using ho'
            rw [← ho2]
          · rw [set_level_high m p t' pos o hrec hc hp]
            exact ⟨hs, hmm⟩
        · rcases hc : m.currentSignal with _ | o
          · rw [set_level_low m p t' pos hrec hc hp]
            exact ⟨hs, hmm⟩
          · rw [set_level_fall m p t' pos o hrec hc hp]
            exact MonOk_closed m t' o hs (hmm o hc) _ rfl rfl

theorem setRecording_MonOk (m : Monitor) (r : Bool) (t t' : ℚ)
    (h : MonOk m t) (ht : t ≤ t') :
    MonOk (m.set_recording r t').1 t' := by
  obtain ⟨hs, ho⟩ := h
  have hmm : ∀ o', m.currentSignal = some o' → o'.start ≤ t' :=
    fun o' ho' => le_trans (ho o' ho') ht
  cases r with
  | true =>
      rw [set_recording_on m t']
      exact ⟨hs, hmm⟩
  | false =>
      rcases hc : m.currentSignal with _ | o
      · rw [set_recording_off_idle m t' hc]
        exact ⟨hs, hmm⟩
      · rw [set_recording_off_open m t' o hc]
        exact MonOk_closed m t' o hs (hmm o hc) _ rfl rfl

theorem run_MonOk (ops : List MonOp) (t : ℚ) (m : Monitor)
    (h : MonOk m t) (hmono : opsMono t ops) :
    ∀ s ∈ (Monitor.run m ops).signals, s.start ≤ s.end_ := by
  induction ops generalizing t m with
  | nil => exact fun s hs => h.1 s hs
  | cons op rest ih =>
    obtain ⟨hop, hle, hrest⟩ := hmono
    have hstep : MonOk (m.step op) op.time := by
      cases op with
      | level p tt pos => exact setLevel_MonOk m p t tt pos h hle
      | record r tt => exact setRecording_MonOk m r t tt h hle
      | scanStop => exact absurd rfl hop
    exact ih op.time (m.step op) hstep hrest

/-- C4 (amended): a monitor has at most one open signal by construction
(`currentSignal` is a single optional field), and under any sequence of
level updates and recording toggles with nondecreasing timestamps — every
operation the control loop performs except the scan-stop feed, which uses
the fixed timestamp 0 — every closed signal in the history satisfies
start ≤ end. -/
theorem monitor_history_ordered (m : Monitor) (t : ℚ) (ops : List MonOp)
    (h : MonOk m t) (hmono : opsMono t ops) :
    signalsAllOk (Monitor.run m ops) = true := by
  unfold signalsAllOk
  rw [List.all_eq_true]
  intro s hs
  exact decide_eq_true (run_MonOk ops t m h hmono s hs)

/-- Witness for C4: a fresh monitor run through an open at time 1 and a
close at time 2 has a well-ordered history. -/
theorem monitor_history_ordered_witness :
    signalsAllOk (Monitor.run mFresh opsW) = true :=
  monitor_history_ordered mFresh 0 opsW
    ⟨by intro s hs; simp [mFresh] at hs, by intro o ho; simp [mFresh] at ho⟩
    (by norm_num [opsMono, opsW, MonOp.time]; simp)

/-- C4 counterexample: a signal opened at time 5 and then closed by the
scan-stop feed (`set_level(LEVEL_MIN, 0, None)`, gui.py line 202) is
recorded as {start: 5, end: 0}, violating start ≤ end. -/
theorem scan_stop_breaks_order_cex :
    (Monitor.run mFresh [MonOp.level (some 10) 5 none, MonOp.scanStop]).signals
      = [⟨5, 0, none⟩] ∧
    signalsAllOk (Monitor.run mFresh [MonOp.level (some 10) 5 none, MonOp.scanStop])
      = false ∧
    ¬((5 : ℚ) ≤ 0) := by
  refine ⟨?_, ?_, by norm_num⟩
  · norm_num [Monitor.run, Monitor.step, Monitor.set_level, mFresh, LEVEL_MIN]
  · norm_num [signalsAllOk, Monitor.run, Monitor.step, Monitor.set_level,
      mFresh, LEVEL_MIN]

/-- C2: a monitor Idle at the start fed p0 ≥ T, p1 ≥ T, p2 < T (calibrated
threshold) at t0, t1, t2 returns no signal on the first two updates and
exactly the completed signal {start: t0, end: t2} on the third, appending
it to the history exactly once; and in general one update appends exactly
the returned signal, which exists exactly when the update moved the
monitor from Open to Idle. -/
theorem monitor_rise_fall (m mm : Monitor) (p0 p1 p2 t0 t1 t2 : ℚ)
    (pos0 pos1 pos2 : Option (ℚ × ℚ)) (lvl : Option ℚ) (tt : ℚ)
    (pp : Option (ℚ × ℚ))
    (hrec : m.recording = true) (hidle : m.currentSignal = none)
    (h0 : m.threshold + m.calibration ≤ p0)
    (h1 : m.threshold + m.calibration ≤ p1)
    (h2 : p2 < m.threshold + m.calibration) :
    riseFallSpec m p0 p1 p2 t0 t1 t2 pos0 pos1 pos2 ∧
    updateAppendSpec mm lvl tt pp := by
  constructor
  · have e0 := set_level_rise m p0 t0 pos0 hrec hidle h0
    have e1 := set_level_high ({ m with currentSignal := some ⟨t0, pos0⟩ })
      p1 t1 pos1 ⟨t0, pos0⟩ hrec rfl h1
    have e2 := set_level_fall ({ m with currentSignal := some ⟨t0, pos0⟩ })
      p2 t2 pos2 ⟨t0, pos0⟩ hrec rfl (not_le.mpr h2)
    unfold riseFallSpec updates3
    simp [e0, e1, e2]
  · unfold updateAppendSpec
    cases hr : mm.recording with
    | false =>
        rw [set_level_stopped mm lvl tt pp hr]
        constructor <;> simp [Monitor.isOpen]
    | true =>
        rcases lvl with _ | p
        · rcases hc : mm.currentSignal with _ | o
          · rw [set_level_none_idle mm tt pp hr hc]
            constructor <;> simp [Monitor.isOpen, hc]
          · rw [set_level_none_open mm tt pp o hr hc]
            constructor <;> simp [Monitor.isOpen, hc]
        · by_cases hp : mm.threshold + mm.calibration ≤ p
          · rcases hc : mm.currentSignal with _ | o
            · rw [set_level_rise mm p tt pp hr hc hp]
              constructor <;> simp [Monitor.isOpen, hc]
            · rw [set_level_high mm p tt pp o hr hc hp]
              constructor <;> simp [Monitor.isOpen, hc]
          · rcases hc : mm.currentSignal with _ | o
            · rw [set_level_low mm p tt pp hr hc hp]
              constructor <;> simp [Monitor.isOpen, hc]
            · rw [set_level_fall mm p tt pp o hr hc hp]
              constructor <;> simp [Monitor.isOpen, hc]

/-- Witness for C2: the fresh monitor fed 10, 10, -1 at times 1, 2, 3
produces exactly the signal {start: 1, end: 3}. -/
theorem monitor_rise_fall_witness :
    riseFallSpec mFresh 10 10 (-1) 1 2 3 none none none ∧
    updateAppendSpec mFresh (some 10) 1 none :=
  monitor_rise_fall mFresh mFresh 10 10 (-1) 1 2 3 none none none (some 10) 1
    none rfl rfl (by norm_num [mFresh]) (by norm_num [mFresh])
    (by norm_num [mFresh])

/-- C6 (amended): of two MON_ALERT events less than ALERT_LENGTH apart the
alert fires at most once — exactly once when the first event itself comes
at least ALERT_LENGTH after the last fired alert; an event fires only when
at least ALERT_LENGTH has passed since the last fired alert, and the
shared timestamp is updated exactly with the decision to fire. -/
theorem alert_debounce (fr : Frame) (al t1 t2 : ℚ) (_h12 : t1 ≤ t2)
    (hlt : t2 - t1 < al) : alertPairSpec fr al t1 t2 := by
  unfold alertPairSpec on_mon_alert
  by_cases hc : al ≤ t1 - fr.alertLast
  · have hc2 : ¬(al ≤ t2 - t1) := not_le.mpr hlt
    simp [hc, hc2]
  · simp [hc]

/-- Witness for C6: from a fresh frame, events at 10 and 13 with
ALERT_LENGTH 5 satisfy the pair behaviour. -/
theorem alert_debounce_witness : alertPairSpec frZ 5 10 13 :=
  alert_debounce frZ 5 10 13 (by norm_num) (by norm_num)

/-- C6 counterexample: with ALERT_LENGTH 5, an alert fires at time 10;
the MON_ALERT events at 12 and 13 are less than 5 apart yet fire zero
times, not exactly once — a prior fired alert can suppress both members of
a close pair. -/
theorem alert_pair_zero_fires_cex :
    (13 : ℚ) - 12 < 5 ∧
    (on_mon_alert frZ 5 10).2 = true ∧
    (on_mon_alert (on_mon_alert frZ 5 10).1 5 12).2 = false ∧
    (on_mon_alert (on_mon_alert (on_mon_alert frZ 5 10).1 5 12).1 5 13).2
      = false := by
  refine ⟨by norm_num, ?_, ?_, ?_⟩ <;>
    norm_num [on_mon_alert, frZ, initFrame]

/-- C10: the shared last-alert timestamp starts at 0, so the first
MON_ALERT of a session fires whenever the wall-clock time is at least
ALERT_LENGTH — the debounce never suppresses the first alert. -/
theorem first_alert_always_fires (bins : Nat) (f g c al now : ℚ)
    (h : al ≤ now) :
    (initFrame bins f g c).alertLast = 0 ∧
    (on_mon_alert (initFrame bins f g c) al now).2 = true ∧
    (on_mon_alert (initFrame bins f g c) al now).1.alertLast = now := by
  have hcc : al ≤ now - (initFrame bins f g c).alertLast := by
    show al ≤ now - 0
    rw [sub_zero]
    exact h
  refine ⟨rfl, ?_, ?_⟩ <;> simp [on_mon_alert, hcc]

/-- Witness for C10: with ALERT_LENGTH 2 the first alert at time 3
fires. -/
theorem first_alert_always_fires_witness :
    (initFrame 1 0 0 0).alertLast = 0 ∧
    (on_mon_alert (initFrame 1 0 0 0) 2 3).2 = true ∧
    (on_mon_alert (initFrame 1 0 0 0) 2 3).1.alertLast = 3 :=
  first_alert_always_fires 1 0 0 0 2 3 (by norm_num)

theorem gpsInv_start (retry : ℚ) (s : GpsState) (h : GpsInv retry s) :
    GpsInv retry (startGps s) := by
  obtain ⟨hp, hsome, hnone⟩ := h
  unfold startGps
  by_cases hcond : (s.gps.isNone && s.enabled) = true
  · have hg : s.gps = none := by
      rcases hgg : s.gps with _ | i
      · rfl
      · rw [hgg] at hcond
        simp at hcond
    simp only [hcond, if_true]
    refine ⟨hp, ?_, ?_⟩
    · intro i hi
      simp only at hi
      have hii : s.nextId = i := by
        simpa using hi
      show s.active ++ [s.nextId] = [i]
      rw [hnone hg, hii]
      rfl
    · intro hgx
      simp at hgx
  · simp only [hcond, if_false]
    exact ⟨hp, hsome, hnone⟩

theorem gpsInv_stop (retry : ℚ) (s : GpsState) (h : GpsInv retry s) :
    GpsInv retry (stopGps s) := by
  obtain ⟨hp, hsome, hnone⟩ := h
  unfold stopGps
  rcases hg : s.gps with _ | i
  · exact ⟨hp, hsome, hnone⟩
  · refine ⟨hp, ?_, ?_⟩
    · intro j hj
      simp at hj
    · intro _
      show s.active.erase i = []
      rw [hsome i hg]
      simp

theorem gpsInv_restart (retry : ℚ) (s : GpsState) (t : ℚ)
    (h : GpsInv retry s) : GpsInv retry (restartGps retry s t) := by
  obtain ⟨hp, hsome, hnone⟩ := gpsInv_stop retry s h
  unfold restartGps
  refine ⟨?_, ?_, ?_⟩
  · intro p hpm
    rcases List.mem_append.1 hpm with hm | hm
    · exact hp p hm
    · rcases List.mem_singleton.1 hm with rfl
      rfl
  · intro i hi
    exact hsome i hi
  · intro hg
    exact hnone hg

theorem gpsInv_fire (retry : ℚ) (s : GpsState) (t : ℚ) (k : Nat)
    (h : GpsInv retry s) : GpsInv retry (gpsFire s t k) := by
  unfold gpsFire
  rcases hgk : s.pending.get? k with _ | sd
  · exact h
  · show GpsInv retry
      (if sd.2 ≤ t then startGps { s with pending := s.pending.eraseIdx k }
       else s)
    by_cases hd : sd.2 ≤ t
    · rw [if_pos hd]
      apply gpsInv_start
      obtain ⟨hp, hsome, hnone⟩ := h
      refine ⟨?_, hsome, hnone⟩
      intro p hpm
      exact hp p (List.eraseIdx_subset _ _ hpm)
    · rw [if_neg hd]
      exact h

theorem gpsInv_step (retry : ℚ) (s : GpsState) (ev : ℚ × GpsEv)
    (h : GpsInv retry s) : GpsInv retry (gpsStep retry s ev) := by
  rcases ev with ⟨t, e⟩
  cases e with
  | fail msg =>
      exact gpsInv_restart retry { s with status := msg } t ⟨h.1, h.2.1, h.2.2⟩
  | warn msg => exact ⟨h.1, h.2.1, h.2.2⟩
  | fire k => exact gpsInv_fire retry s t k h

theorem gpsInv_run (retry : ℚ) (trace : List (ℚ × GpsEv)) :
    ∀ s, GpsInv retry s → GpsInv retry (runGps retry s trace) := by
  induction trace with
  | nil => exact fun _ h => h
  | cons ev evs ih => exact fun s h => ih _ (gpsInv_step retry s ev h)

theorem gpsInv_init (retry : ℚ) (en : Bool) : GpsInv retry (gpsInit en) := by
  apply gpsInv_start
  refine ⟨?_, ?_, ?_⟩
  · intro p hp
    simp at hp
  · intro i hi
    simp at hi
  · intro _
    rfl

theorem gpsRestart_of_inv (retry : ℚ) (s : GpsState) (h : GpsInv retry s) :
    gpsRestartSpec retry s := by
  intro t k hch
  unfold gpsFire at hch
  rcases hgk : s.pending.get? k with _ | sd
  · rw [hgk] at hch
    exact absurd rfl hch
  · by_cases hd : sd.2 ≤ t
    · have h2 := h.1 sd (List.get?_mem hgk)
      refine ⟨sd.1, ?_, ?_⟩
      · exact congrArg some (Prod.ext rfl h2)
      · rw [← h2]
        exact hd
    · rw [hgk] at hch
      have : (if sd.2 ≤ t then startGps { s with pending := s.pending.eraseIdx k }
          else s).gps ≠ s.gps := hch
      rw [if_neg hd] at this
      exact absurd rfl this

/-- C9: along any event trace from start-up, every pending restart
callback scheduled by a GPS_ERROR/GPS_TIMEOUT at time `sched` is due at
`sched + GPS_RETRY`, at most one `Gps` instance is alive at any point, a
callback that actually restarts the source fires no earlier than
`sched + GPS_RETRY`, and a GPS_WARN event only rewrites the status text. -/
theorem gps_restart_delayed (retry : ℚ) (en : Bool)
    (trace : List (ℚ × GpsEv)) :
    GpsInv retry (runGps retry (gpsInit en) trace) ∧
    (runGps retry (gpsInit en) trace).active.length ≤ 1 ∧
    gpsRestartSpec retry (runGps retry (gpsInit en) trace) ∧
    (∀ t msg, gpsStep retry (runGps retry (gpsInit en) trace) (t, GpsEv.warn msg)
        = { runGps retry (gpsInit en) trace with status := msg }) := by
  have hinv := gpsInv_run retry trace (gpsInit en) (gpsInv_init retry en)
  refine ⟨hinv, ?_, gpsRestart_of_inv retry _ hinv, fun t msg => rfl⟩
  rcases hg : (runGps retry (gpsInit en) trace).gps with _ | i
  · rw [hinv.2.2 hg]
    simp
  · rw [hinv.2.1 i hg]
    simp

/-- Witness for C9: with GPS_RETRY 5, a failure at time 0 schedules a
callback due at 5, and its expiry at time 7 (which restarts the source)
satisfies sched + GPS_RETRY ≤ 7. -/
theorem gps_restart_delayed_witness :
    ∃ sched, (runGps 5 (gpsInit true) [(0, GpsEv.fail "e")]).pending.get? 0
        = some (sched, sched + 5) ∧ sched + 5 ≤ 7 :=
  (gps_restart_delayed 5 true [(0, GpsEv.fail "e")]).2.2.1 7 0
    (by
      norm_num [runGps, gpsStep, gpsInit, startGps, stopGps, restartGps,
        gpsFire, List.eraseIdx]
      exact fun hcon => Option.noConfusion hcon)

end RFMonitor
